import Mathlib

/-!
Verification of the audiobook-generation core: the chapter segmentation
engine (`modules/splitter/chapter_splitter.py`), the per-chapter synthesis
isolation loop (`agents/audiobook_agent.py`, `tts_node`), the voice-provider
entry guard (`modules/tts/edge_tts_provider.py`, `generate_audio`) and the
pipeline routing (`agents/audiobook_agent.py`, `route_after_step` and
`_build_workflow`).

Python strings are modelled as `List Char`; `str.strip()` as `pyStrip`
(ASCII whitespace); `s[a:b]` as `slice`.  The regex engine is treated as an
opaque capability: `re.finditer(pattern, text, MULTILINE | IGNORECASE)` is a
parameter `finditer : Str → List ReMatch` producing the ordered list of
non-overlapping match spans, and `ValidMatches` states the ordering and
bounds facts that `finditer` guarantees.  Fallible code returns `Except`.
-/

set_option autoImplicit false

deriving instance DecidableEq for Except

namespace AudiobookGen

/-- Python strings, modelled as lists of characters. -/
abbrev Str := List Char

/-- Python `str.strip()`: remove leading and trailing whitespace. -/
def pyStrip (s : Str) : Str :=
  ((s.dropWhile Char.isWhitespace).reverse.dropWhile Char.isWhitespace).reverse

/-- Python slice `s[a:b]` (for the in-range indices the splitter uses). -/
def slice (s : Str) (a b : Nat) : Str := (s.take b).drop a

/-- One `re.Match`: its span `[start, stop)` in the searched text; the
matched text `group(0)` is `slice text start stop`. -/
structure ReMatch where
  start : Nat
  stop : Nat
deriving Repr, DecidableEq

/-- True when consecutive spans do not overlap: each match ends at or before
the next one starts. -/
def spansOrdered : List ReMatch → Bool
  | [] => true
  | [_] => true
  | a :: b :: rest => decide (a.stop ≤ b.start) && spansOrdered (b :: rest)

/-- Facts `re.finditer` guarantees about its output on `raw`: matches come
in left-to-right non-overlapping order and their spans lie inside `raw`. -/
def ValidMatches (raw : Str) (ms : List ReMatch) : Prop :=
  spansOrdered ms = true ∧ ∀ m ∈ ms, m.start ≤ m.stop ∧ m.stop ≤ raw.length

instance (raw : Str) (ms : List ReMatch) : Decidable (ValidMatches raw ms) :=
  inferInstanceAs (Decidable (spansOrdered ms = true ∧
    ∀ m ∈ ms, m.start ≤ m.stop ∧ m.stop ≤ raw.length))

/-- The `Chapter` dataclass (`models/chapter.py`).  `duration` is a Python
float, never written by the modelled code; it is embedded as `Option Rat`. -/
structure Chapter where
  number : Nat
  title : Str
  text : Str
  audio_path : Option Str := none
  duration : Option Rat := none
deriving Repr, DecidableEq

/-- The `Book` dataclass (`models/book.py`). -/
structure Book where
  title : Str
  author : Option Str := none
  file_path : Option Str := none
  raw_text : Str := []
  chapters : List Chapter := []
deriving Repr, DecidableEq

/-- Message of the `ValueError` raised by `ChapterSplitter.split` on a book
with no text. -/
def noContentMsg : Str := "Book has no text to split".toList

/-- Title given to the single chapter emitted when no match is found. -/
def fullBookTitle : Str := "Full book".toList

/-- End position of chapter `i`'s body: the start of match `i+1`, or the end
of the text for the last match (`matches[i + 1].start() if i + 1 < len(matches)
else len(book.raw_text)`). -/
def chapterEndPos (raw : Str) (ms : List ReMatch) (i : Nat) : Nat :=
  match ms.get? (i + 1) with
  | some m2 => m2.start
  | none => raw.length

/-- Loop body of `ChapterSplitter.split` for match index `i` (0-based):
number `i+1`, title `match.group(0).strip()`, text
`book.raw_text[match.end():end_pos].strip()`. -/
def chapterOfMatch (raw : Str) (ms : List ReMatch) (i : Nat) (m : ReMatch) : Chapter :=
  { number := i + 1
    title := pyStrip (slice raw m.start m.stop)
    text := pyStrip (slice raw m.stop (chapterEndPos raw ms i)) }

/-- The `for i, match in enumerate(matches)` loop of `ChapterSplitter.split`. -/
def splitMatched (raw : Str) (ms : List ReMatch) : List Chapter :=
  ms.enum.map fun p => chapterOfMatch raw ms p.1 p.2

/-- `ChapterSplitter.split` (`modules/splitter/chapter_splitter.py`): raise
`ValueError` if `not book.raw_text`; otherwise run `finditer`; with no match
return the single "Full book" chapter carrying the raw text; with matches
return one chapter per match. -/
def ChapterSplitter.split (finditer : Str → List ReMatch) (raw_text : Str) :
    Except Str (List Chapter) :=
  if raw_text.isEmpty then .error noContentMsg
  else
    let ms := finditer raw_text
    if ms.isEmpty then .ok [{ number := 1, title := fullBookTitle, text := raw_text }]
    else .ok (splitMatched raw_text ms)

/-- `ChapterSplitter.split_and_update_book`: split, then store the chapters
on the book and return it. -/
def ChapterSplitter.split_and_update_book (finditer : Str → List ReMatch) (book : Book) :
    Except Str Book :=
  match ChapterSplitter.split finditer book.raw_text with
  | .ok chs => .ok { book with chapters := chs }
  | .error e => .error e

/-- Decimal rendering of a `Nat`, as Python's `str`/f-string does. -/
def natStr (n : Nat) : Str := (Nat.repr n).toList

/-- Python `f"{number:02d}"`: pad to two digits with a leading zero. -/
def pad2 (n : Nat) : Str := if n < 10 then '0' :: natStr n else natStr n

/-- The audio filename `f"chapter_{chapter.number:02d}.{format}"` derived in
`tts_node`. -/
def audioFilename (fmt : Str) (n : Nat) : Str :=
  "chapter_".toList ++ pad2 n ++ '.' :: fmt

/-- Python `repr` of a list of ints, as an f-string renders
`failed_chapters`: `[2, 5]`. -/
def pyListRepr (ns : List Nat) : Str :=
  '[' :: List.intercalate ", ".toList (ns.map natStr) ++ "]".toList

/-- The warning message built in `tts_node`:
`f"warning: {len(failed_chapters)} chapters failed: {failed_chapters}"`. -/
def warningMsg (failed : List Nat) : Str :=
  "warning: ".toList ++ natStr failed.length ++ " chapters failed: ".toList
    ++ pyListRepr failed

/-- Error stored when every chapter's synthesis failed. -/
def allFailedMsg : Str := "fatal: All chapters failed to generate audio".toList

/-- Message of the `ValueError` raised by `EdgeTTS.generate_audio` on a
chapter with no text. -/
def noTextMsg (n : Nat) : Str :=
  "Chapter ".toList ++ natStr n ++ " has no text to convert".toList

/-- Message of the `RuntimeError` that `generate_audio` re-raises when the
synthesis engine fails: `f"Audio generation failed for chapter {number}: {e}"`. -/
def genFailWrap (n : Nat) (e : Str) : Str :=
  "Audio generation failed for chapter ".toList ++ natStr n ++ ": ".toList ++ e

/-- Result of one `generate_audio` call: the returned path or the raised
error, plus whether the call reached the filesystem (directory creation,
temp file, conversion) at all.  The no-text guard fires before any of that. -/
structure GenAttempt where
  result : Except Str Str
  touchedFs : Bool
deriving Repr, DecidableEq

/-- `EdgeTTS.generate_audio` (`modules/tts/edge_tts_provider.py`): reject a
chapter with empty or all-whitespace text (`ValueError`, before any output
file is created); otherwise invoke the opaque synthesis engine (edge-tts,
validation, optional ffmpeg conversion), modelled by the `engine` capability,
and return the destination path on success or the wrapped `RuntimeError`. -/
def EdgeTTS.generate_audio (engine : Chapter → Except Str Unit) (chapter : Chapter)
    (output_path : Str) : GenAttempt :=
  if chapter.text.isEmpty || (pyStrip chapter.text).length == 0 then
    { result := .error (noTextMsg chapter.number), touchedFs := false }
  else
    match engine chapter with
    | .ok _ => { result := .ok output_path, touchedFs := true }
    | .error e => { result := .error (genFailWrap chapter.number e), touchedFs := true }

/-- Whether the synthesis attempt for `ch` in `tts_node`'s loop fails (lands
in the `except` branch). -/
def synthFails (engine : Chapter → Except Str Unit) (fmt chaptersDir : Str)
    (ch : Chapter) : Bool :=
  match (EdgeTTS.generate_audio engine ch
      (chaptersDir ++ '/' :: audioFilename fmt ch.number)).result with
  | .ok _ => false
  | .error _ => true

/-- The `for chapter in book.chapters` loop of `tts_node`: on success attach
the returned path to the chapter and count it; on failure record the chapter
number and continue.  Returns (chapters as mutated in place, successful
count, failed chapter numbers in order). -/
def ttsLoop (engine : Chapter → Except Str Unit) (fmt chaptersDir : Str) :
    List Chapter → List Chapter × Nat × List Nat
  | [] => ([], 0, [])
  | ch :: rest =>
    let audio_path := chaptersDir ++ '/' :: audioFilename fmt ch.number
    let r := ttsLoop engine fmt chaptersDir rest
    match (EdgeTTS.generate_audio engine ch audio_path).result with
    | .ok p => ({ ch with audio_path := some p } :: r.1, r.2.1 + 1, r.2.2)
    | .error _ => (ch :: r.1, r.2.1, ch.number :: r.2.2)

/-- Python truthiness of `ch.audio_path` (`None` and `""` are falsy), as the
filter in `tts_node` tests it. -/
def truthyStrOpt : Option Str → Bool
  | some s => !s.isEmpty
  | none => false

/-- Outcome of `tts_node`: the updated book, the `error` field of the
returned state, and the warning messages emitted to the log. -/
structure TtsResult where
  book : Book
  error : Option Str
  logWarnings : List Str
deriving Repr, DecidableEq

/-- The chapters directory `output_dir / "chapters"` created by `tts_node`. -/
def chaptersDirOf (output_dir : Str) : Str := output_dir ++ "/chapters".toList

/-- `AudiobookAgent.tts_node` (`agents/audiobook_agent.py`): run the
per-chapter loop; if no chapter succeeded, return the state with a fatal
error; if some failed, log the warning message and drop the chapters without
a (truthy) audio path; return the state with `error = None` otherwise. -/
def AudiobookAgent.tts_node (engine : Chapter → Except Str Unit) (fmt output_dir : Str)
    (book : Book) : TtsResult :=
  let chaptersDir := chaptersDirOf output_dir
  let r := ttsLoop engine fmt chaptersDir book.chapters
  if r.2.1 = 0 then
    { book := { book with chapters := r.1 }, error := some allFailedMsg, logWarnings := [] }
  else if r.2.2.isEmpty then
    { book := { book with chapters := r.1 }, error := none, logWarnings := [] }
  else
    { book := { book with chapters := r.1.filter fun c => truthyStrOpt c.audio_path },
      error := none, logWarnings := [warningMsg r.2.2] }

/-- How `parser.parse` can fail in `parse_node`: `FileNotFoundError` or any
other exception, each carrying its message. -/
inductive ParseFail where
  | notFound (msg : Str)
  | other (msg : Str)
deriving Repr, DecidableEq

/-- The workflow state (`agents/audiobook_state.py`), restricted to the
fields the routing logic reads: the current book and the error string.
`book_path`, `config` and `output_dir` are passed to the stage functions as
parameters. -/
structure PipelineState where
  book : Option Book
  error : Option Str
deriving Repr, DecidableEq

/-- Fatal error stored when the parsed book has no extractable text. -/
def noDataMsg : Str := "fatal: File contains no data to extract".toList

/-- Fatal error stored when the source file is missing. -/
def notFoundWrap (e : Str) : Str := "fatal: File not found - ".toList ++ e

/-- Fatal error stored when parsing raises any other exception. -/
def parseFailWrap (e : Str) : Str := "fatal: Failed to parse PDF - ".toList ++ e

/-- Fatal error stored when splitting raises. -/
def splitFailWrap (e : Str) : Str := "fatal: Failed to split chapters - ".toList ++ e

/-- Message of the `AttributeError` Python raises when `split` receives
`None` instead of a book (only reachable if `split_node` runs without a
parsed book in the state). -/
def noneBookMsg : Str := "'NoneType' object has no attribute 'raw_text'".toList

/-- Fatal error stored when `tts_node`'s body raises before the loop (here:
only the unreachable no-book case). -/
def ttsNoneBookMsg : Str :=
  "fatal: TTS initialization failed - 'NoneType' object has no attribute 'chapters'".toList

/-- `AudiobookAgent.parse_node`: the external parse outcome is the
`parseResult` capability; an empty or all-whitespace extraction is fatal;
otherwise store the book and clear the error. -/
def AudiobookAgent.parse_node (parseResult : Except ParseFail Book)
    (st : PipelineState) : PipelineState :=
  match parseResult with
  | .error (.notFound e) => { st with error := some (notFoundWrap e) }
  | .error (.other e) => { st with error := some (parseFailWrap e) }
  | .ok book =>
    if book.raw_text.isEmpty || (pyStrip book.raw_text).length == 0 then
      { st with error := some noDataMsg }
    else { book := some book, error := none }

/-- `AudiobookAgent.split_node`: split the current book into chapters; any
exception becomes a fatal error. -/
def AudiobookAgent.split_node (finditer : Str → List ReMatch)
    (st : PipelineState) : PipelineState :=
  match st.book with
  | none => { st with error := some (splitFailWrap noneBookMsg) }
  | some book =>
    match ChapterSplitter.split_and_update_book finditer book with
    | .ok b => { book := some b, error := none }
    | .error e => { st with error := some (splitFailWrap e) }

/-- `AudiobookAgent.tts_node` lifted to the workflow state. -/
def AudiobookAgent.tts_node_state (engine : Chapter → Except Str Unit)
    (fmt output_dir : Str) (st : PipelineState) : PipelineState :=
  match st.book with
  | none => { st with error := some ttsNoneBookMsg }
  | some book =>
    let r := AudiobookAgent.tts_node engine fmt output_dir book
    { book := some r.book, error := r.error }

/-- Routing label `"end"`. -/
def endLabel : Str := "end".toList

/-- Routing label `"continue"`. -/
def continueLabel : Str := "continue".toList

/-- The error-severity marker `route_after_step` looks for. -/
def fatalToken : Str := "fatal".toList

/-- `AudiobookAgent.route_after_step`: `"end"` when the state carries an
error starting with `"fatal"`, else `"continue"`. -/
def AudiobookAgent.route_after_step (st : PipelineState) : Str :=
  match st.error with
  | some e => if fatalToken.isPrefixOf e then endLabel else continueLabel
  | none => continueLabel

/-- Node name `"parse"`. -/
def nodeParse : Str := "parse".toList

/-- Node name `"split"`. -/
def nodeSplit : Str := "split".toList

/-- Node name `"tts"`. -/
def nodeTts : Str := "tts".toList

/-- The compiled workflow of `_build_workflow`: entry point `parse`, then a
conditional edge to `split` or `END`, then a conditional edge to `tts` or
`END`.  Returns the final state and the list of nodes that executed. -/
def AudiobookAgent.runWorkflow (parseResult : Except ParseFail Book)
    (finditer : Str → List ReMatch) (engine : Chapter → Except Str Unit)
    (fmt output_dir : Str) (st0 : PipelineState) : PipelineState × List Str :=
  let s1 := AudiobookAgent.parse_node parseResult st0
  if AudiobookAgent.route_after_step s1 = endLabel then (s1, [nodeParse])
  else
    let s2 := AudiobookAgent.split_node finditer s1
    if AudiobookAgent.route_after_step s2 = endLabel then (s2, [nodeParse, nodeSplit])
    else
      (AudiobookAgent.tts_node_state engine fmt output_dir s2,
        [nodeParse, nodeSplit, nodeTts])

/-- Classification of a state's error under the string-prefix severity
scheme the agent uses: no error means none, a `fatal`-prefixed message is
fatal, any other message is the degraded (warning) report. -/
def classificationOf (e : Option Str) : Str :=
  match e with
  | none => "none".toList
  | some m => if fatalToken.isPrefixOf m then "fatal".toList else "warning".toList

/-- Chapter numbers `1, 2, ..., len` in order. -/
def contiguousFrom1 (ns : List Nat) : Prop := ns = List.range' 1 ns.length

instance (ns : List Nat) : Decidable (contiguousFrom1 ns) :=
  inferInstanceAs (Decidable (ns = List.range' 1 ns.length))

lemma splitMatched_length (raw : Str) (ms : List ReMatch) :
    (splitMatched raw ms).length = ms.length := by
  simp [splitMatched]

lemma splitMatched_get (raw : Str) (ms : List ReMatch) (i : Nat)
    (h1 : i < (splitMatched raw ms).length) (h2 : i < ms.length) :
    (splitMatched raw ms).get ⟨i, h1⟩ = chapterOfMatch raw ms i (ms.get ⟨i, h2⟩) := by
  simp [splitMatched, List.get_eq_getElem, List.getElem_map, List.getElem_enum]

lemma splitMatched_map_number (raw : Str) (ms : List ReMatch) :
    (splitMatched raw ms).map Chapter.number = List.range' 1 ms.length := by
  unfold splitMatched
  rw [List.map_map]
  have hcomp : (Chapter.number ∘ fun p : Nat × ReMatch => chapterOfMatch raw ms p.1 p.2)
      = (fun n => 1 + n) ∘ Prod.fst := by
    funext p
    simp [chapterOfMatch, Nat.add_comm]
  rw [hcomp, ← List.map_map, List.enum_map_fst, ← List.range'_eq_map_range]

lemma pyStrip_nil : pyStrip ([] : Str) = [] := rfl

/-- C1.  Corrected: with zero matches the emitted chapter carries the raw
input text verbatim (`text=book.raw_text`), not the trimmed text the claim
states.  This theorem is the amended claim: for every input that is
non-empty after trimming and on which the pattern has zero matches, split
returns exactly one chapter numbered 1, titled "Full book", whose text is
the entire (untrimmed) input. -/
theorem C1_zero_matches_single_full_book (finditer : Str → List ReMatch) (raw : Str)
    (hne : pyStrip raw ≠ []) (hnm : finditer raw = []) :
    ChapterSplitter.split finditer raw =
      .ok [{ number := 1, title := fullBookTitle, text := raw }] := by
  have hraw : raw ≠ [] := by
    intro h
    subst h
    exact hne pyStrip_nil
  simp [ChapterSplitter.split, hnm, List.isEmpty_iff, hraw]

/-- C1 witness: the amended claim at the concrete input `"hi "` with a
matcher returning no matches. -/
theorem C1_zero_matches_single_full_book_witness :
    ChapterSplitter.split (fun _ => ([] : List ReMatch)) "hi ".toList =
      .ok [{ number := 1, title := fullBookTitle, text := "hi ".toList }] :=
  C1_zero_matches_single_full_book (fun _ => []) "hi ".toList (by decide) rfl

/-- C1 counterexample: on the input `"hello "` (non-empty after trimming,
zero matches) the returned chapter's text is the untrimmed input, which
differs from the trimmed input the claim requires. -/
theorem C1_counterexample :
    ChapterSplitter.split (fun _ => ([] : List ReMatch)) "hello ".toList =
        .ok [{ number := 1, title := fullBookTitle, text := "hello ".toList }]
      ∧ "hello ".toList ≠ pyStrip "hello ".toList := by
  exact ⟨rfl, by decide⟩

/-- C2.  Corrected: `split` raises its no-content `ValueError` iff the raw
text is the empty string — an all-whitespace input does not fail (Python's
`not book.raw_text` is false on `" "`), it degrades to the single-chapter
case.  The amended claim: segmentation fails iff the input is empty; the
failure does not depend on the matcher (it occurs before any matching); no
other input fails. -/
theorem C2_error_iff_empty (f g : Str → List ReMatch) (raw : Str) :
    ((∃ e, ChapterSplitter.split f raw = .error e) ↔ raw = [])
      ∧ (raw = [] → ChapterSplitter.split f raw = ChapterSplitter.split g raw) := by
  constructor
  · constructor
    · rintro ⟨e, he⟩
      by_contra hraw
      simp only [ChapterSplitter.split, List.isEmpty_iff, hraw, if_false, if_neg] at he
      split at he <;> simp_all
    · rintro rfl
      exact ⟨noContentMsg, rfl⟩
  · rintro rfl
    rfl

/-- C2 witness: on the empty input, two runs with different matchers agree
(the failure happens before matching). -/
theorem C2_error_iff_empty_witness :
    ChapterSplitter.split (fun _ => [ReMatch.mk 0 0]) ([] : Str) =
      ChapterSplitter.split (fun _ => ([] : List ReMatch)) ([] : Str) :=
  (C2_error_iff_empty (fun _ => [ReMatch.mk 0 0]) (fun _ => []) []).2 rfl

/-- C2 counterexample: the all-whitespace input `" "` does not fail, contrary
to the claim's "empty or consists only of whitespace". -/
theorem C2_counterexample :
    pyStrip " ".toList = []
      ∧ ChapterSplitter.split (fun _ => ([] : List ReMatch)) " ".toList =
          .ok [{ number := 1, title := fullBookTitle, text := " ".toList }] := by
  exact ⟨rfl, rfl⟩

/-- C5.  Confirmed: with `k ≥ 1` matches, split succeeds and returns exactly
`k` chapters in match order; chapter at index `i` (0-based) is numbered
`i+1`, its title is the trimmed matched text of match `i`, and its text is
the trimmed span between the end of match `i` and the start of match `i+1`
(or the end of the text for the last match).  Every chapter body is a slice
starting at a match's end, so text before the first match appears in no
chapter. -/
theorem C5_matched_characterization (finditer : Str → List ReMatch) (raw : Str)
    (hraw : raw ≠ []) (hk : finditer raw ≠ [])
    (hv : ValidMatches raw (finditer raw)) :
    ChapterSplitter.split finditer raw = .ok (splitMatched raw (finditer raw))
    ∧ (splitMatched raw (finditer raw)).length = (finditer raw).length
    ∧ ∀ (i : Nat) (h1 : i < (splitMatched raw (finditer raw)).length)
        (h2 : i < (finditer raw).length),
        ((splitMatched raw (finditer raw)).get ⟨i, h1⟩).number = i + 1
        ∧ ((splitMatched raw (finditer raw)).get ⟨i, h1⟩).title
            = pyStrip (slice raw ((finditer raw).get ⟨i, h2⟩).start
                ((finditer raw).get ⟨i, h2⟩).stop)
        ∧ (∀ h3 : i + 1 < (finditer raw).length,
            ((splitMatched raw (finditer raw)).get ⟨i, h1⟩).text
              = pyStrip (slice raw ((finditer raw).get ⟨i, h2⟩).stop
                  ((finditer raw).get ⟨i + 1, h3⟩).start))
        ∧ (¬ i + 1 < (finditer raw).length →
            ((splitMatched raw (finditer raw)).get ⟨i, h1⟩).text
              = pyStrip (slice raw ((finditer raw).get ⟨i, h2⟩).stop raw.length)) := by
  refine ⟨?_, splitMatched_length raw _, ?_⟩
  · simp [ChapterSplitter.split, List.isEmpty_iff, hraw, hk]
  · intro i h1 h2
    rw [splitMatched_get raw _ i h1 h2]
    refine ⟨rfl, rfl, ?_, ?_⟩
    · intro h3
      have hget : (finditer raw)[i + 1]? = some ((finditer raw).get ⟨i + 1, h3⟩) := by
        simp [List.getElem?_eq_getElem h3]
      simp [chapterOfMatch, chapterEndPos, hget]
    · intro h3
      have hget : (finditer raw)[i + 1]? = none :=
        List.getElem?_eq_none (Nat.le_of_not_lt h3)
      simp [chapterOfMatch, chapterEndPos, hget]

/-- Raw text of the spec's Example 1. -/
def ex1raw : Str := "Intro\nChapter 1\nText A\nChapter 2\nText B".toList

/-- Match spans of `^Chapter \d+` on `ex1raw`: `"Chapter 1"` at `[6, 15)` and
`"Chapter 2"` at `[23, 32)`. -/
def ex1ms : List ReMatch := [⟨6, 15⟩, ⟨23, 32⟩]

/-- C5 witness: the characterization applied to the spec's Example 1; the
two chapters come out as `(1, "Chapter 1", "Text A")` and
`(2, "Chapter 2", "Text B")`, with `"Intro"` dropped. -/
theorem C5_matched_characterization_witness :
    ChapterSplitter.split (fun _ => ex1ms) ex1raw = .ok (splitMatched ex1raw ex1ms)
    ∧ splitMatched ex1raw ex1ms =
        [{ number := 1, title := "Chapter 1".toList, text := "Text A".toList },
         { number := 2, title := "Chapter 2".toList, text := "Text B".toList }] :=
  ⟨(C5_matched_characterization (fun _ => ex1ms) ex1raw (by decide) (by decide)
      (by decide)).1,
   by decide⟩

/-- C8.  Confirmed: segmentation is a pure function of its inputs — equal
matcher and equal raw text give identical chapter sequences. -/
theorem C8_deterministic (f1 f2 : Str → List ReMatch) (r1 r2 : Str)
    (hf : f1 = f2) (hr : r1 = r2) :
    ChapterSplitter.split f1 r1 = ChapterSplitter.split f2 r2 := by
  subst hf
  subst hr
  rfl

/-- C8 witness: determinism at a concrete input. -/
theorem C8_deterministic_witness :
    ChapterSplitter.split (fun _ => ([] : List ReMatch)) "a".toList =
      ChapterSplitter.split (fun _ => ([] : List ReMatch)) "a".toList :=
  C8_deterministic _ _ _ _ rfl rfl

/-- C9.  Confirmed: `split_and_update_book` only replaces the chapters
field — title, author, file path and raw text are unchanged on success. -/
theorem C9_frame (finditer : Str → List ReMatch) (book b2 : Book)
    (h : ChapterSplitter.split_and_update_book finditer book = .ok b2) :
    b2.title = book.title ∧ b2.author = book.author
      ∧ b2.file_path = book.file_path ∧ b2.raw_text = book.raw_text := by
  unfold ChapterSplitter.split_and_update_book at h
  cases hs : ChapterSplitter.split finditer book.raw_text with
  | ok chs =>
    rw [hs] at h
    injection h with h2
    subst h2
    exact ⟨rfl, rfl, rfl, rfl⟩
  | error e =>
    rw [hs] at h
    exact absurd h (by simp)

lemma ttsLoop_failed_characterization (engine : Chapter → Except Str Unit)
    (fmt dir : Str) (chs : List Chapter) :
    (ttsLoop engine fmt dir chs).2.2 =
      (chs.filter (synthFails engine fmt dir)).map Chapter.number := by
  induction chs with
  | nil => rfl
  | cons ch rest ih =>
    simp only [ttsLoop]
    cases hres : (EdgeTTS.generate_audio engine ch
        (dir ++ '/' :: audioFilename fmt ch.number)).result with
    | ok p =>
      have hsf : synthFails engine fmt dir ch = false := by simp [synthFails, hres]
      simp [hres, ih, List.filter_cons, hsf]
    | error e =>
      have hsf : synthFails engine fmt dir ch = true := by simp [synthFails, hres]
      simp [hres, ih, List.filter_cons, hsf]

lemma ttsLoop_succ_add_failed (engine : Chapter → Except Str Unit)
    (fmt dir : Str) (chs : List Chapter) :
    (ttsLoop engine fmt dir chs).2.1 + (ttsLoop engine fmt dir chs).2.2.length
      = chs.length := by
  induction chs with
  | nil => rfl
  | cons ch rest ih =>
    simp only [ttsLoop]
    cases hres : (EdgeTTS.generate_audio engine ch
        (dir ++ '/' :: audioFilename fmt ch.number)).result with
    | ok p =>
      simp only [hres, List.length_cons]
      omega
    | error e =>
      simp only [hres, List.length_cons]
      omega

lemma ttsLoop_map_number (engine : Chapter → Except Str Unit)
    (fmt dir : Str) (chs : List Chapter) :
    (ttsLoop engine fmt dir chs).1.map Chapter.number = chs.map Chapter.number := by
  induction chs with
  | nil => rfl
  | cons ch rest ih =>
    simp only [ttsLoop]
    cases hres : (EdgeTTS.generate_audio engine ch
        (dir ++ '/' :: audioFilename fmt ch.number)).result with
    | ok p => simp [hres, ih]
    | error e => simp [hres, ih]

lemma ttsLoop_filter_audio_length (engine : Chapter → Except Str Unit)
    (fmt dir : Str) (chs : List Chapter)
    (hnone : ∀ ch ∈ chs, ch.audio_path = none) :
    ((ttsLoop engine fmt dir chs).1.filter fun c => truthyStrOpt c.audio_path).length
      = (ttsLoop engine fmt dir chs).2.1 := by
  induction chs with
  | nil => rfl
  | cons ch rest ih =>
    have hrest : ∀ c ∈ rest, c.audio_path = none := fun c hc => hnone c (List.mem_cons_of_mem ch hc)
    simp only [ttsLoop]
    cases hres : (EdgeTTS.generate_audio engine ch
        (dir ++ '/' :: audioFilename fmt ch.number)).result with
    | ok p =>
      have hpath : (dir ++ '/' :: audioFilename fmt ch.number : Str) ≠ [] := by simp
      have htruthy : truthyStrOpt (some (dir ++ '/' :: audioFilename fmt ch.number)) = true := by
        simp [truthyStrOpt, List.isEmpty_iff, hpath]
      have hp : p = dir ++ '/' :: audioFilename fmt ch.number := by
        have := hres
        simp only [EdgeTTS.generate_audio] at this
        split at this
        · simp_all
        · split at this <;> simp_all
      subst hp
      simp [hres, List.filter_cons, htruthy, ih hrest]
    | error e =>
      have hch : truthyStrOpt ch.audio_path = false := by
        rw [hnone ch (List.mem_cons_self ch rest)]
        rfl
      simp [hres, List.filter_cons, hch, ih hrest]

lemma ttsLoop_getElem?_failed (engine : Chapter → Except Str Unit) (fmt dir : Str) :
    ∀ (chs : List Chapter) (i : Nat) (ch : Chapter),
      chs[i]? = some ch → synthFails engine fmt dir ch = true →
        (ttsLoop engine fmt dir chs).1[i]? = some ch
  | [], i, ch => by
    intro hget _
    simp at hget
  | ch0 :: rest, 0, ch => by
    intro hget hsf
    simp only [List.getElem?_cons_zero, Option.some.injEq] at hget
    subst hget
    simp only [ttsLoop]
    cases hres : (EdgeTTS.generate_audio engine ch0
        (dir ++ '/' :: audioFilename fmt ch0.number)).result with
    | ok p =>
      exfalso
      rw [synthFails, hres] at hsf
      exact Bool.false_ne_true hsf
    | error e => simp [hres]
  | ch0 :: rest, i + 1, ch => by
    intro hget hsf
    have ihres := ttsLoop_getElem?_failed engine fmt dir rest i ch
      (by simpa using hget) hsf
    simp only [ttsLoop]
    cases hres : (EdgeTTS.generate_audio engine ch0
        (dir ++ '/' :: audioFilename fmt ch0.number)).result with
    | ok p => simpa using ihres
    | error e => simpa using ihres

lemma ttsLoop_all_fail (engine : Chapter → Except Str Unit) (fmt dir : Str)
    (chs : List Chapter)
    (hall : ∀ ch ∈ chs, synthFails engine fmt dir ch = true) :
    (ttsLoop engine fmt dir chs).1 = chs ∧ (ttsLoop engine fmt dir chs).2.1 = 0 := by
  induction chs with
  | nil => exact ⟨rfl, rfl⟩
  | cons ch rest ih =>
    have hch := hall ch (List.mem_cons_self ch rest)
    have hrest := ih fun c hc => hall c (List.mem_cons_of_mem ch hc)
    simp only [ttsLoop]
    cases hres : (EdgeTTS.generate_audio engine ch
        (dir ++ '/' :: audioFilename fmt ch.number)).result with
    | ok p =>
      exfalso
      rw [synthFails, hres] at hch
      exact Bool.false_ne_true hch
    | error e => simp [hres, hrest.1, hrest.2]

/-- C3.  Corrected: on a partial failure the code only *logs* the warning
message; the state it returns carries `error = None`, so the run's
classification as seen by the routing and the caller is none, not warning.
The amended claim: if exactly `m` of `n` chapter syntheses fail with
`0 < m < n`, the returned state's error is `None`, the logged warning
message states the failure count and exactly the failed chapter numbers in
order, and the returned document contains exactly `n − m` chapters — those
with an audio reference attached. -/
theorem C3_partial_failure (engine : Chapter → Except Str Unit) (fmt od : Str)
    (book : Book)
    (hnone : ∀ ch ∈ book.chapters, ch.audio_path = none)
    (hsucc : (ttsLoop engine fmt (chaptersDirOf od) book.chapters).2.1 ≠ 0)
    (hfail : (ttsLoop engine fmt (chaptersDirOf od) book.chapters).2.2 ≠ []) :
    (AudiobookAgent.tts_node engine fmt od book).error = none
    ∧ (AudiobookAgent.tts_node engine fmt od book).logWarnings
        = [warningMsg ((ttsLoop engine fmt (chaptersDirOf od) book.chapters).2.2)]
    ∧ (ttsLoop engine fmt (chaptersDirOf od) book.chapters).2.2
        = (book.chapters.filter (synthFails engine fmt (chaptersDirOf od))).map
            Chapter.number
    ∧ (AudiobookAgent.tts_node engine fmt od book).book.chapters.length
        = book.chapters.length
            - (ttsLoop engine fmt (chaptersDirOf od) book.chapters).2.2.length
    ∧ ∀ c ∈ (AudiobookAgent.tts_node engine fmt od book).book.chapters,
        truthyStrOpt c.audio_path = true := by
  have hne : ((ttsLoop engine fmt (chaptersDirOf od) book.chapters).2.2.isEmpty) = false := by
    simp [List.isEmpty_iff, hfail]
  have hres : AudiobookAgent.tts_node engine fmt od book =
      { book := { book with chapters :=
          ((ttsLoop engine fmt (chaptersDirOf od) book.chapters).1.filter
            (fun c => truthyStrOpt c.audio_path)) }
        error := none
        logWarnings := [warningMsg
          ((ttsLoop engine fmt (chaptersDirOf od) book.chapters).2.2)] } := by
    simp only [AudiobookAgent.tts_node]
    rw [if_neg hsucc, hne]
    simp
  refine ⟨by rw [hres], by rw [hres],
    ttsLoop_failed_characterization engine fmt (chaptersDirOf od) book.chapters, ?_, ?_⟩
  · rw [hres]
    show ((ttsLoop engine fmt (chaptersDirOf od) book.chapters).1.filter
        fun c => truthyStrOpt c.audio_path).length = _
    rw [ttsLoop_filter_audio_length engine fmt (chaptersDirOf od) book.chapters hnone]
    have := ttsLoop_succ_add_failed engine fmt (chaptersDirOf od) book.chapters
    omega
  · rw [hres]
    intro c hc
    exact (List.mem_filter.mp hc).2

/-- Book used by the C3 counterexample and witness: two chapters, no audio. -/
def c3book : Book :=
  { title := "b".toList, raw_text := "t".toList
    chapters := [{ number := 1, title := "c1".toList, text := "ta".toList },
                 { number := 2, title := "c2".toList, text := "tb".toList }] }

/-- Engine that fails exactly chapter 2. -/
def c3engine : Chapter → Except Str Unit := fun ch =>
  if ch.number = 2 then .error "boom".toList else .ok ()

/-- C3 counterexample: two chapters, exactly one synthesis failure — yet the
returned state's error is `None`, so its classification is none, not the
warning the claim requires. -/
theorem C3_counterexample :
    (ttsLoop c3engine "mp3".toList (chaptersDirOf "out".toList) c3book.chapters).2.2 = [2]
    ∧ (ttsLoop c3engine "mp3".toList (chaptersDirOf "out".toList) c3book.chapters).2.1 = 1
    ∧ c3book.chapters.length = 2
    ∧ (AudiobookAgent.tts_node c3engine "mp3".toList "out".toList c3book).error = none
    ∧ classificationOf
        (AudiobookAgent.tts_node c3engine "mp3".toList "out".toList c3book).error
      ≠ "warning".toList := by
  refine ⟨by decide, by decide, rfl, by decide, by decide⟩

/-- C3 witness: the amended claim at the concrete two-chapter run where only
chapter 2 fails. -/
theorem C3_partial_failure_witness :
    (AudiobookAgent.tts_node c3engine "mp3".toList "out".toList c3book).error = none
    ∧ (AudiobookAgent.tts_node c3engine "mp3".toList "out".toList c3book).logWarnings
        = [warningMsg ((ttsLoop c3engine "mp3".toList (chaptersDirOf "out".toList)
            c3book.chapters).2.2)]
    ∧ (AudiobookAgent.tts_node c3engine "mp3".toList "out".toList c3book).book.chapters.length
        = c3book.chapters.length
            - (ttsLoop c3engine "mp3".toList (chaptersDirOf "out".toList)
                c3book.chapters).2.2.length := by
  have h := C3_partial_failure c3engine "mp3".toList "out".toList c3book
    (by decide) (by decide) (by decide)
  exact ⟨h.1, h.2.1, h.2.2.2.1⟩

/-- C4.  Confirmed: when every chapter of a non-empty chapter sequence fails
synthesis, `tts_node` returns the fatal all-chapters-failed error (so the
run's final classification is fatal) and the surviving chapter set — the
chapters carrying an audio reference — is empty. -/
theorem C4_all_fail_fatal (engine : Chapter → Except Str Unit) (fmt od : Str)
    (book : Book)
    (hne : book.chapters ≠ [])
    (hnone : ∀ ch ∈ book.chapters, ch.audio_path = none)
    (hall : ∀ ch ∈ book.chapters, synthFails engine fmt (chaptersDirOf od) ch = true) :
    (AudiobookAgent.tts_node engine fmt od book).error = some allFailedMsg
    ∧ classificationOf (AudiobookAgent.tts_node engine fmt od book).error = "fatal".toList
    ∧ ((AudiobookAgent.tts_node engine fmt od book).book.chapters.filter
        fun c => truthyStrOpt c.audio_path) = [] := by
  obtain ⟨hchs, hzero⟩ := ttsLoop_all_fail engine fmt (chaptersDirOf od) book.chapters hall
  have hres : AudiobookAgent.tts_node engine fmt od book =
      { book := { book with chapters :=
          (ttsLoop engine fmt (chaptersDirOf od) book.chapters).1 }
        error := some allFailedMsg
        logWarnings := [] } := by
    simp only [AudiobookAgent.tts_node]
    rw [if_pos hzero]
  refine ⟨by rw [hres], by rw [hres]; rfl, ?_⟩
  rw [hres]
  show ((ttsLoop engine fmt (chaptersDirOf od) book.chapters).1.filter
      fun c => truthyStrOpt c.audio_path) = []
  rw [hchs]
  exact List.filter_eq_nil_iff.mpr fun c hc => by
    rw [hnone c hc]
    simp [truthyStrOpt]

/-- Book used by the C4 witness: one chapter, no audio. -/
def c4book : Book :=
  { title := "b".toList, raw_text := "t".toList
    chapters := [{ number := 1, title := "c1".toList, text := "ta".toList }] }

/-- Engine that always fails. -/
def c4engine : Chapter → Except Str Unit := fun _ => .error "x".toList

/-- C4 witness: the all-fail case at a concrete one-chapter run (the spec's
Example 3). -/
theorem C4_all_fail_fatal_witness :
    (AudiobookAgent.tts_node c4engine "mp3".toList "out".toList c4book).error
        = some allFailedMsg
    ∧ classificationOf
        (AudiobookAgent.tts_node c4engine "mp3".toList "out".toList c4book).error
      = "fatal".toList
    ∧ ((AudiobookAgent.tts_node c4engine "mp3".toList "out".toList c4book).book.chapters.filter
        fun c => truthyStrOpt c.audio_path) = [] :=
  C4_all_fail_fatal c4engine "mp3".toList "out".toList c4book
    (by decide) (by decide) (by decide)

/-- C7.  Corrected: chapter numbers are contiguous starting at 1 after
segmentation, but removing failed chapters keeps the original numbers, so
after the synthesis stage the numbers are only an order-preserving
subsequence of the original numbering — gaps can appear.  The amended
claim: segmentation always yields chapter numbers `1..k`, and the synthesis
stage's returned chapter-number sequence is a subsequence of the input
one. -/
theorem C7_numbering (finditer : Str → List ReMatch) (raw : Str)
    (chs : List Chapter) (engine : Chapter → Except Str Unit) (fmt od : Str)
    (book : Book) :
    (ChapterSplitter.split finditer raw = .ok chs →
      contiguousFrom1 (chs.map Chapter.number))
    ∧ ((AudiobookAgent.tts_node engine fmt od book).book.chapters.map
        Chapter.number).Sublist (book.chapters.map Chapter.number) := by
  constructor
  · intro h
    unfold ChapterSplitter.split at h
    by_cases hraw : raw.isEmpty
    · rw [if_pos hraw] at h
      exact absurd h (by simp)
    · rw [if_neg hraw] at h
      by_cases hms : (finditer raw).isEmpty
      · simp only [hms, if_true] at h
        injection h with h2
        subst h2
        rfl
      · simp only [hms, if_false] at h
        injection h with h2
        subst h2
        unfold contiguousFrom1
        rw [splitMatched_map_number]
        simp
  · have hmap := ttsLoop_map_number engine fmt (chaptersDirOf od) book.chapters
    simp only [AudiobookAgent.tts_node]
    split
    · show ((ttsLoop engine fmt (chaptersDirOf od) book.chapters).1.map
          Chapter.number).Sublist _
      rw [hmap]
    · split
      · show ((ttsLoop engine fmt (chaptersDirOf od) book.chapters).1.map
            Chapter.number).Sublist _
        rw [hmap]
      · show (((ttsLoop engine fmt (chaptersDirOf od) book.chapters).1.filter
            (fun c => truthyStrOpt c.audio_path)).map Chapter.number).Sublist _
        rw [← hmap]
        exact (List.filter_sublist _).map Chapter.number

/-- Book used by the C7 counterexample: three chapters, no audio. -/
def c7book : Book :=
  { title := "b".toList, raw_text := "t".toList
    chapters := [{ number := 1, title := "c1".toList, text := "ta".toList },
                 { number := 2, title := "c2".toList, text := "tb".toList },
                 { number := 3, title := "c3".toList, text := "tc".toList }] }

/-- Engine that fails exactly chapter 2 (for C7). -/
def c7engine : Chapter → Except Str Unit := fun ch =>
  if ch.number = 2 then .error "e".toList else .ok ()

/-- C7 counterexample: after the synthesis stage drops failed chapter 2 of
three, the remaining chapter numbers are `[1, 3]` — not contiguous starting
at 1. -/
theorem C7_counterexample :
    ((AudiobookAgent.tts_node c7engine "mp3".toList "out".toList c7book).book.chapters.map
        Chapter.number) = [1, 3]
    ∧ ¬ contiguousFrom1
        ((AudiobookAgent.tts_node c7engine "mp3".toList "out".toList c7book).book.chapters.map
          Chapter.number) := by
  refine ⟨by decide, by decide⟩

/-- C7 witness: the amended claim's segmentation half at a concrete
zero-match split, through the theorem. -/
theorem C7_numbering_witness :
    contiguousFrom1
      (([{ number := 1, title := fullBookTitle, text := "x".toList }] : List Chapter).map
        Chapter.number) :=
  (C7_numbering (fun _ => []) "x".toList
    [{ number := 1, title := fullBookTitle, text := "x".toList }]
    c7engine "mp3".toList "out".toList c7book).1 rfl

/-- C10.  Confirmed: a chapter whose body text is empty or all-whitespace is
rejected by `generate_audio`'s entry guard — a `ValueError` raised before
the filesystem is touched — so the synthesis loop records its number in the
failed list and leaves the chapter unchanged (no audio reference is ever
attached). -/
theorem C10_empty_text_always_fails (engine : Chapter → Except Str Unit)
    (fmt od : Str) (book : Book) (i : Nat) (h1 : i < book.chapters.length)
    (hempty : pyStrip ((book.chapters.get ⟨i, h1⟩).text) = []) :
    (EdgeTTS.generate_audio engine (book.chapters.get ⟨i, h1⟩)
        (chaptersDirOf od ++ '/' :: audioFilename fmt (book.chapters.get ⟨i, h1⟩).number)).result
      = .error (noTextMsg (book.chapters.get ⟨i, h1⟩).number)
    ∧ (EdgeTTS.generate_audio engine (book.chapters.get ⟨i, h1⟩)
        (chaptersDirOf od ++ '/' :: audioFilename fmt (book.chapters.get ⟨i, h1⟩).number)).touchedFs
      = false
    ∧ (book.chapters.get ⟨i, h1⟩).number
        ∈ (ttsLoop engine fmt (chaptersDirOf od) book.chapters).2.2
    ∧ (ttsLoop engine fmt (chaptersDirOf od) book.chapters).1[i]?
        = some (book.chapters.get ⟨i, h1⟩) := by
  have hguard : ((book.chapters.get ⟨i, h1⟩).text.isEmpty
      || (pyStrip (book.chapters.get ⟨i, h1⟩).text).length == 0) = true := by
    simp only [List.get_eq_getElem] at hempty
    simp [hempty]
  have hgen : ∀ path : Str,
      EdgeTTS.generate_audio engine (book.chapters.get ⟨i, h1⟩) path
        = { result := .error (noTextMsg (book.chapters.get ⟨i, h1⟩).number)
            touchedFs := false } := by
    intro path
    unfold EdgeTTS.generate_audio
    rw [if_pos hguard]
  have hsf : synthFails engine fmt (chaptersDirOf od) (book.chapters.get ⟨i, h1⟩) = true := by
    rw [synthFails, hgen]
  have hmem : book.chapters.get ⟨i, h1⟩ ∈ book.chapters := List.get_mem book.chapters i h1
  refine ⟨by rw [hgen], by rw [hgen], ?_, ?_⟩
  · rw [ttsLoop_failed_characterization]
    exact List.mem_map_of_mem Chapter.number (List.mem_filter.mpr ⟨hmem, hsf⟩)
  · exact ttsLoop_getElem?_failed engine fmt (chaptersDirOf od) book.chapters i
      (book.chapters.get ⟨i, h1⟩) (by simp [List.getElem?_eq_getElem h1]) hsf

/-- Book used by the C10 witness: one chapter whose text is whitespace. -/
def c10book : Book :=
  { title := "b".toList, raw_text := "t".toList
    chapters := [{ number := 1, title := "c".toList, text := " ".toList }] }

/-- Engine that always succeeds (the guard must fail the chapter anyway). -/
def c10engine : Chapter → Except Str Unit := fun _ => .ok ()

/-- C10 witness: a whitespace-only chapter is failed by the loop even under
an always-succeeding engine. -/
theorem C10_empty_text_always_fails_witness :
    (1 : Nat) ∈ (ttsLoop c10engine "mp3".toList (chaptersDirOf "out".toList)
      c10book.chapters).2.2 := by
  have h := (C10_empty_text_always_fails c10engine "mp3".toList "out".toList c10book 0
    (by decide) (by decide)).2.2.1
  exact h

/-- C6.  Confirmed: routing ends the run at the first fatal stage.  If the
parse stage's state is fatal, the workflow stops with exactly that state and
only the parse node has executed (the split and synthesis stages never run);
if parse is non-fatal and the split stage's state is fatal, the workflow
stops with the split stage's state and the synthesis stage never runs; only
when neither is fatal does the synthesis stage execute.  In each case the
final state is the first fatal state encountered, so at most one fatal
condition is recorded per run. -/
theorem C6_fatal_stops_pipeline (pr : Except ParseFail Book)
    (fi : Str → List ReMatch) (engine : Chapter → Except Str Unit)
    (fmt od : Str) (st0 : PipelineState) :
    (AudiobookAgent.route_after_step (AudiobookAgent.parse_node pr st0) = endLabel →
      AudiobookAgent.runWorkflow pr fi engine fmt od st0
        = (AudiobookAgent.parse_node pr st0, [nodeParse]))
    ∧ (AudiobookAgent.route_after_step (AudiobookAgent.parse_node pr st0) ≠ endLabel →
        AudiobookAgent.route_after_step
            (AudiobookAgent.split_node fi (AudiobookAgent.parse_node pr st0)) = endLabel →
        AudiobookAgent.runWorkflow pr fi engine fmt od st0
          = (AudiobookAgent.split_node fi (AudiobookAgent.parse_node pr st0),
              [nodeParse, nodeSplit]))
    ∧ (AudiobookAgent.route_after_step (AudiobookAgent.parse_node pr st0) ≠ endLabel →
        AudiobookAgent.route_after_step
            (AudiobookAgent.split_node fi (AudiobookAgent.parse_node pr st0)) ≠ endLabel →
        AudiobookAgent.runWorkflow pr fi engine fmt od st0
          = (AudiobookAgent.tts_node_state engine fmt od
              (AudiobookAgent.split_node fi (AudiobookAgent.parse_node pr st0)),
              [nodeParse, nodeSplit, nodeTts])) := by
  refine ⟨?_, ?_, ?_⟩
  · intro h1
    simp only [AudiobookAgent.runWorkflow]
    rw [if_pos h1]
  · intro h1 h2
    simp only [AudiobookAgent.runWorkflow]
    rw [if_neg h1, if_pos h2]
  · intro h1 h2
    simp only [AudiobookAgent.runWorkflow]
    rw [if_neg h1, if_neg h2]

/-- C6 witness: a failed parse (missing file) ends the run after the parse
node alone. -/
theorem C6_fatal_stops_pipeline_witness :
    AudiobookAgent.runWorkflow (Except.error (ParseFail.notFound "x".toList))
      (fun _ => []) (fun _ => Except.ok ()) "mp3".toList "out".toList
      { book := none, error := none }
    = (AudiobookAgent.parse_node (Except.error (ParseFail.notFound "x".toList))
        { book := none, error := none }, [nodeParse]) :=
  (C6_fatal_stops_pipeline (Except.error (ParseFail.notFound "x".toList))
    (fun _ => []) (fun _ => Except.ok ()) "mp3".toList "out".toList
    { book := none, error := none }).1 (by decide)

/-- Concrete book for the C9 witness. -/
def c9book : Book :=
  { title := "t".toList, author := some "a".toList, file_path := some "p".toList
    raw_text := "x".toList }

/-- C9 witness: the frame property applied to a concrete successful run. -/
theorem C9_frame_witness :
    ({ c9book with
        chapters := [{ number := 1, title := fullBookTitle, text := "x".toList }] } :
          Book).title = c9book.title
      ∧ ({ c9book with
            chapters := [{ number := 1, title := fullBookTitle, text := "x".toList }] } :
              Book).author = c9book.author
      ∧ ({ c9book with
            chapters := [{ number := 1, title := fullBookTitle, text := "x".toList }] } :
              Book).file_path = c9book.file_path
      ∧ ({ c9book with
            chapters := [{ number := 1, title := fullBookTitle, text := "x".toList }] } :
              Book).raw_text = c9book.raw_text :=
  C9_frame (fun _ => []) c9book _ rfl

end AudiobookGen
